import Mathlib

/-!
Verification of the token-acquisition/refresh/caching state machine of the
repository: `KeycloakAuth` (brokered offline-token exchange,
`src/lib/keycloak-auth.js`), `SimpleAuth` (direct personal-access-token
exchange, `src/lib/simple-auth.js`) and the second `SimpleAuth` class embedded
at the end of `src/lib/server.js`.

The JavaScript classes are shallowly embedded as pure functions over explicit
state.  A network exchange is abstracted by a `FetchOutcome` argument (the
HTTP response, or a transport error); `Date.now()` is an explicit `now : Nat`
in milliseconds.  JavaScript truthiness is modelled exactly: a missing field
is `none`, the empty string and the number 0 are falsy, and conditions such
as `if (data.expires_in)` are translated through `truthyS` / `truthyN`.
A thrown exception is an `Except.error` carrying the message; exceptions that
the source catches internally are resolved inside the definitions.
-/

/-- JavaScript truthiness of a possibly-absent string: `undefined`, `null`
and the empty string are falsy. -/
def truthyS : Option String → Bool
  | none => false
  | some s => s ≠ ""

/-- JavaScript truthiness of a possibly-absent number: `undefined`, `null`
and 0 are falsy. -/
def truthyN : Option Nat → Bool
  | none => false
  | some n => n ≠ 0

/-- JavaScript `a || b` on possibly-absent strings. -/
def orTruthyS (a b : Option String) : Option String :=
  if truthyS a then a else b

/-- JavaScript `a || d` with a string default. -/
def jsOr (a : Option String) (d : String) : String :=
  if truthyS a then a.getD d else d

/-- JavaScript template-string rendering of a possibly-absent value. -/
def jsString : Option String → String
  | none => "undefined"
  | some s => s

/-- Parsed JSON body of a token-endpoint success response.  A field that the
endpoint did not send is `none`. -/
structure TokenData where
  access_token : Option String := none
  refresh_token : Option String := none
  token : Option String := none
  expires_in : Option Nat := none
  token_type : Option String := none
deriving DecidableEq, Repr

/-- Body text of a non-2xx response: either it parses as JSON (with optional
`error` / `error_description` fields) or it is raw text. -/
inductive ErrBody where
  | json (error : Option String) (error_description : Option String)
  | raw (text : String)
deriving DecidableEq, Repr

/-- The `error` field the source obtains from an error body:
`JSON.parse` success keeps the parsed field, otherwise `unknown`. -/
def ErrBody.errorField : ErrBody → Option String
  | .json e _ => e
  | .raw _ => some "unknown"

/-- The `error_description` field the source obtains from an error body. -/
def ErrBody.errorDescriptionField : ErrBody → Option String
  | .json _ d => d
  | .raw t => some t

/-- Outcome of one `fetch` of the token endpoint.
`ok none` is an HTTP-success response whose body is not valid JSON
(`response.json()` throws). -/
inductive FetchOutcome where
  | ok (body : Option TokenData)
  | err (status : Nat) (body : ErrBody)
  | transport (msg : String)
deriving DecidableEq, Repr

/-- The plain-object result every exchange method resolves with.  Fields the
source does not put on a given result are `none`. -/
structure AuthResult where
  success : Bool
  accessToken : Option String := none
  refreshToken : Option String := none
  expiresIn : Option Nat := none
  tokenType : Option String := none
  error : Option String := none
  errorDescription : Option String := none
  status : Option Nat := none
  note : Option String := none
deriving DecidableEq, Repr

/-- The `success: false, error: network_error` result built in the catch
blocks of the source. -/
def networkFailure (msg : String) : AuthResult :=
  { success := false, error := some "network_error", errorDescription := some msg }

/-- Message of the TypeError raised by reading `.length` of `undefined`
(the `Access token length` log line). -/
def lengthOfUndefinedMsg : String := "Cannot read properties of undefined (reading length)"

/-- Message of the SyntaxError raised by `response.json()` on a non-JSON body. -/
def jsonParseMsg : String := "Unexpected token in JSON"

/-- Whether an `Except`-valued call returned normally (did not throw). -/
def exceptOk {α : Type} : Except String α → Bool
  | .ok _ => true
  | .error _ => false

/-- Construction-time configuration of `KeycloakAuth` (the fields the
exchange methods read; absent means the constructor received `undefined`). -/
structure KeycloakConfig where
  clientId : Option String
  clientSecret : Option String
  offlineToken : Option String
deriving DecidableEq, Repr

/-- Token storage of a `KeycloakAuth` instance:
`this.accessToken`, `this.refreshToken`, `this.tokenExpiry`. -/
structure KCState where
  accessToken : Option String
  refreshToken : Option String
  tokenExpiry : Option Nat
deriving DecidableEq, Repr

/-- The token storage as initialised by the constructor: all `null`. -/
def KCState.empty : KCState := ⟨none, none, none⟩

/-- KeycloakAuth.hasValidToken, `src/lib/keycloak-auth.js` lines 49-57. -/
def KeycloakAuth.hasValidToken (st : KCState) (now : Nat) : Bool :=
  if ! truthyS st.accessToken then false
  else if ! truthyN st.tokenExpiry then true
  else decide (st.tokenExpiry.getD 0 > now + 60 * 1000)

/-- KeycloakAuth.authenticateWithOfflineToken, lines 63-156.  Throws (before
any request) when the offline token or the client id is falsy.  On HTTP
success it stores `access_token` / `refresh_token` and, when `expires_in` is
truthy, `now + expires_in * 1000`; when the body carries no `access_token`
the success log line then reads `.length` of `undefined`, and the resulting
TypeError is caught by the catch block of the same method, which returns a
`network_error` failure (the state mutation has already happened). -/
def KeycloakAuth.authenticateWithOfflineToken (cfg : KeycloakConfig)
    (st : KCState) (now : Nat) (outcome : FetchOutcome) :
    Except String (AuthResult × KCState) :=
  if ! truthyS cfg.offlineToken then
    .error "Offline token is required for authentication"
  else if ! truthyS cfg.clientId then
    .error "Client ID is required for authentication"
  else
    match outcome with
    | .ok (some data) =>
        let st1 : KCState :=
          ⟨data.access_token, data.refresh_token,
           if truthyN data.expires_in then
             some (now + data.expires_in.getD 0 * 1000)
           else st.tokenExpiry⟩
        match data.access_token with
        | none => .ok (networkFailure lengthOfUndefinedMsg, st1)
        | some tok =>
            .ok ({ success := true, accessToken := some tok,
                   refreshToken := data.refresh_token,
                   expiresIn := data.expires_in,
                   tokenType := data.token_type }, st1)
    | .ok none => .ok (networkFailure jsonParseMsg, st)
    | .err status body =>
        .ok ({ success := false, error := body.errorField,
               errorDescription := body.errorDescriptionField,
               status := some status }, st)
    | .transport msg => .ok (networkFailure msg, st)

/-- KeycloakAuth.refreshAccessToken, lines 161-213, paired with the number of
calls it makes to `authenticateWithOfflineToken`.  With no cached refresh
token it delegates to the offline exchange (outside its try block).  On a
successful refresh it stores the new access token, keeps the old refresh
token unless the response carries a truthy new one, and returns
`success, accessToken`.  On a non-2xx response it calls the offline fallback
inside its try block, so if that fallback throws (missing config) the catch
block calls it a second time and that throw propagates; on a transport error
or a JSON-parse error the catch block calls the fallback once. -/
def KeycloakAuth.refreshAccessToken (cfg : KeycloakConfig) (st : KCState)
    (now : Nat) (refreshOutcome : FetchOutcome)
    (now2 : Nat) (offlineOutcome : FetchOutcome) :
    Except String (AuthResult × KCState) × Nat :=
  if ! truthyS st.refreshToken then
    (KeycloakAuth.authenticateWithOfflineToken cfg st now2 offlineOutcome, 1)
  else
    match refreshOutcome with
    | .ok (some data) =>
        let st1 : KCState :=
          ⟨data.access_token,
           if truthyS data.refresh_token then data.refresh_token
           else st.refreshToken,
           if truthyN data.expires_in then
             some (now + data.expires_in.getD 0 * 1000)
           else st.tokenExpiry⟩
        (.ok ({ success := true, accessToken := data.access_token }, st1), 0)
    | .ok none =>
        (KeycloakAuth.authenticateWithOfflineToken cfg st now2 offlineOutcome, 1)
    | .err _ _ =>
        match KeycloakAuth.authenticateWithOfflineToken cfg st now2 offlineOutcome with
        | .ok r => (.ok r, 1)
        | .error _ =>
            (KeycloakAuth.authenticateWithOfflineToken cfg st now2 offlineOutcome, 2)
    | .transport _ =>
        (KeycloakAuth.authenticateWithOfflineToken cfg st now2 offlineOutcome, 1)

/-- KeycloakAuth.getAccessToken, lines 218-231. -/
def KeycloakAuth.getAccessToken (cfg : KeycloakConfig) (st : KCState)
    (now : Nat) (refreshOutcome : FetchOutcome)
    (now2 : Nat) (offlineOutcome : FetchOutcome) :
    Except String (AuthResult × KCState) × Nat :=
  if KeycloakAuth.hasValidToken st now then
    (.ok ({ success := true, accessToken := st.accessToken }, st), 0)
  else if truthyS st.refreshToken then
    KeycloakAuth.refreshAccessToken cfg st now refreshOutcome now2 offlineOutcome
  else
    (KeycloakAuth.authenticateWithOfflineToken cfg st now2 offlineOutcome, 1)

/-- KeycloakAuth.getAuthHeader, lines 236-243. -/
def KeycloakAuth.getAuthHeader (cfg : KeycloakConfig) (st : KCState)
    (now : Nat) (refreshOutcome : FetchOutcome)
    (now2 : Nat) (offlineOutcome : FetchOutcome) :
    Except String (String × KCState) :=
  match (KeycloakAuth.getAccessToken cfg st now refreshOutcome now2 offlineOutcome).1 with
  | .error e => .error e
  | .ok (r, st1) =>
      if r.success then .ok ("Bearer " ++ jsString r.accessToken, st1)
      else
        .error ("Authentication failed: " ++
          jsString (orTruthyS r.errorDescription r.error))

/-- KeycloakAuth.clearTokens, lines 248-253. -/
def KeycloakAuth.clearTokens (_st : KCState) : KCState := ⟨none, none, none⟩

/-- Token storage of a `SimpleAuth` instance (both the `simple-auth.js` class
and the class embedded in `server.js` have the same two fields). -/
structure SAState where
  accessToken : Option String
  tokenExpiry : Option Nat
deriving DecidableEq, Repr

/-- The storage as initialised by either constructor: all `null`. -/
def SAState.empty : SAState := ⟨none, none⟩

/-- SimpleAuth.hasValidToken, `src/lib/simple-auth.js` lines 41-49. -/
def SimpleAuth.hasValidToken (st : SAState) (now : Nat) : Bool :=
  if ! truthyS st.accessToken then false
  else if ! truthyN st.tokenExpiry then true
  else decide (st.tokenExpiry.getD 0 > now + 60 * 1000)

/-- Note attached when a 401/403 response makes the method fall back to the
personal access token itself. -/
def SimpleAuth.directNote : String := "Using personal access token directly"

/-- Note attached when a transport error makes the method fall back to the
personal access token itself. -/
def SimpleAuth.fallbackNote : String :=
  "Fallback: using personal access token directly due to network error"

/-- SimpleAuth.authenticateWithPersonalToken, `src/lib/simple-auth.js`
lines 54-164.  Throws before any request when the personal access token is
falsy.  On HTTP success it caches `access_token || token`, or the personal
access token itself when both are falsy, with expiry
`now + (expires_in || 3600) * 1000`.  On 401/403 it caches the personal
access token with a one-hour expiry and reports success with a note.  On any
other non-2xx it reports a structured failure without touching the state.
A transport error, and likewise a JSON-parse error of a success body (the
`response.json()` throw lands in the same outer catch), self-heal into the
personal-access-token fallback with a note. -/
def SimpleAuth.authenticateWithPersonalToken (pat : Option String)
    (st : SAState) (now : Nat) (outcome : FetchOutcome) :
    Except String (AuthResult × SAState) :=
  if ! truthyS pat then
    .error "Personal access token is required for authentication"
  else
    match outcome with
    | .ok (some data) =>
        let tok : Option String :=
          if truthyS data.access_token || truthyS data.token then
            orTruthyS data.access_token data.token
          else pat
        let expiry : Nat :=
          if truthyN data.expires_in then now + data.expires_in.getD 0 * 1000
          else now + 3600 * 1000
        .ok ({ success := true, accessToken := tok,
               expiresIn := some (if truthyN data.expires_in then
                 data.expires_in.getD 0 else 3600),
               tokenType := some (jsOr data.token_type "Bearer") },
             ⟨tok, some expiry⟩)
    | .ok none =>
        .ok ({ success := true, accessToken := pat, expiresIn := some 3600,
               tokenType := some "Bearer",
               note := some SimpleAuth.fallbackNote },
             ⟨pat, some (now + 3600 * 1000)⟩)
    | .err status body =>
        if status == 401 || status == 403 then
          .ok ({ success := true, accessToken := pat, expiresIn := some 3600,
                 tokenType := some "Bearer",
                 note := some SimpleAuth.directNote },
               ⟨pat, some (now + 3600 * 1000)⟩)
        else
          .ok ({ success := false, error := body.errorField,
                 errorDescription := body.errorDescriptionField,
                 status := some status }, st)
    | .transport _ =>
        .ok ({ success := true, accessToken := pat, expiresIn := some 3600,
               tokenType := some "Bearer",
               note := some SimpleAuth.fallbackNote },
             ⟨pat, some (now + 3600 * 1000)⟩)

/-- SimpleAuth.getAccessToken, `src/lib/simple-auth.js` lines 169-177. -/
def SimpleAuth.getAccessToken (pat : Option String) (st : SAState)
    (now : Nat) (outcome : FetchOutcome) :
    Except String (AuthResult × SAState) :=
  if SimpleAuth.hasValidToken st now then
    .ok ({ success := true, accessToken := st.accessToken }, st)
  else
    SimpleAuth.authenticateWithPersonalToken pat st now outcome

/-- SimpleAuth.getAuthHeader, `src/lib/simple-auth.js` lines 182-189. -/
def SimpleAuth.getAuthHeader (pat : Option String) (st : SAState)
    (now : Nat) (outcome : FetchOutcome) :
    Except String (String × SAState) :=
  match SimpleAuth.getAccessToken pat st now outcome with
  | .error e => .error e
  | .ok (r, st1) =>
      if r.success then .ok ("Bearer " ++ jsString r.accessToken, st1)
      else
        .error ("Authentication failed: " ++
          jsString (orTruthyS r.errorDescription r.error))

/-- SimpleAuth.clearTokens, `src/lib/simple-auth.js` lines 194-198. -/
def SimpleAuth.clearTokens (_st : SAState) : SAState := ⟨none, none⟩

/-- hasValidToken of the `SimpleAuth` class embedded in `server.js`,
lines 1128-1136. -/
def ServerSimpleAuth.hasValidToken (st : SAState) (now : Nat) : Bool :=
  if ! truthyS st.accessToken then false
  else if ! truthyN st.tokenExpiry then true
  else decide (st.tokenExpiry.getD 0 > now + 60 * 1000)

/-- Message of the error thrown (and then caught by the same method) when a
success response carries no token, `server.js` line 1176. -/
def ServerSimpleAuth.noTokenMsg : String := "No access token in response"

/-- Message of the error thrown (and then caught by the same method) on a
403 response, `server.js` line 1207. -/
def ServerSimpleAuth.licenseMsg : String :=
  "License or authorization error - request returned 403. Please check the license and permissions."

/-- authenticateWithPersonalToken of the `SimpleAuth` class embedded in
`server.js`, lines 1142-1234.  Unlike the `simple-auth.js` variant it has no
self-healing fallbacks: an HTTP-success body without a truthy
`access_token`/`token` throws `No access token in response` (caught by its
own catch, yielding a `network_error` failure), a 403 throws a license error
(likewise caught, yielding a `network_error` failure), any other non-2xx
yields a structured failure, and a transport error (or a JSON-parse error of
a success body) yields a `network_error` failure.  The state is only written
on the success path. -/
def ServerSimpleAuth.authenticateWithPersonalToken (pat : Option String)
    (st : SAState) (now : Nat) (outcome : FetchOutcome) :
    Except String (AuthResult × SAState) :=
  if ! truthyS pat then
    .error "Personal access token is required for authentication"
  else
    match outcome with
    | .ok (some data) =>
        if truthyS data.access_token || truthyS data.token then
          let tok : Option String := orTruthyS data.access_token data.token
          let expiry : Nat :=
            if truthyN data.expires_in then now + data.expires_in.getD 0 * 1000
            else now + 3600 * 1000
          .ok ({ success := true, accessToken := tok,
                 expiresIn := some (if truthyN data.expires_in then
                   data.expires_in.getD 0 else 3600),
                 tokenType := some (jsOr data.token_type "Bearer") },
               ⟨tok, some expiry⟩)
        else
          .ok (networkFailure ServerSimpleAuth.noTokenMsg, st)
    | .ok none => .ok (networkFailure jsonParseMsg, st)
    | .err status body =>
        if status == 403 then
          .ok (networkFailure ServerSimpleAuth.licenseMsg, st)
        else
          .ok ({ success := false, error := body.errorField,
                 errorDescription := body.errorDescriptionField,
                 status := some status }, st)
    | .transport msg => .ok (networkFailure msg, st)

/-- clearTokens of the `SimpleAuth` class embedded in `server.js`,
lines 1264-1268. -/
def ServerSimpleAuth.clearTokens (_st : SAState) : SAState := ⟨none, none⟩

/-- Shape of the body of the one request a token exchange sends. -/
inductive RequestBody where
  | emptyJson
  | form (fields : List (String × String))
deriving DecidableEq, Repr

/-- Observable shape of the token-endpoint request. -/
structure TokenRequest where
  endpoint : String
  contentType : String
  authorization : Option String
  body : RequestBody
deriving DecidableEq, Repr

/-- Token endpoint of `simple-auth.js` (line 17): base URL plus
`/rest/tokens`. -/
def SimpleAuth.tokenEndpoint (baseURL : String) : String :=
  baseURL ++ "/rest/tokens"

/-- Token endpoint of the `server.js` variant (line 1099): base URL plus
`/rest/tokens/` with a trailing slash. -/
def ServerSimpleAuth.tokenEndpoint (baseURL : String) : String :=
  baseURL ++ "/rest/tokens/"

/-- Request sent by `simple-auth.js` (lines 64-76): JSON content type, the
personal access token as a bearer Authorization header, empty JSON body. -/
def SimpleAuth.tokenRequest (baseURL : String) (pat : String) : TokenRequest :=
  ⟨SimpleAuth.tokenEndpoint baseURL, "application/json",
   some ("Bearer " ++ pat), .emptyJson⟩

/-- Request sent by the `server.js` variant (lines 1152-1165): form-encoded
body carrying the personal access token as `refresh_token`, no Authorization
header. -/
def ServerSimpleAuth.tokenRequest (baseURL : String) (pat : String) :
    TokenRequest :=
  ⟨ServerSimpleAuth.tokenEndpoint baseURL, "application/x-www-form-urlencoded",
   none, .form [("refresh_token", pat)]⟩

/-- Properly configured `KeycloakAuth` never throws out of the offline
exchange: every fetch outcome yields a result object. -/
theorem kcOffline_isOk (cfg : KeycloakConfig) (st : KCState) (now : Nat)
    (o : FetchOutcome)
    (h1 : truthyS cfg.offlineToken = true) (h2 : truthyS cfg.clientId = true) :
    ∃ r st1, KeycloakAuth.authenticateWithOfflineToken cfg st now o =
      .ok (r, st1) := by
  unfold KeycloakAuth.authenticateWithOfflineToken
  rw [h1, h2]
  cases o with
  | ok body =>
      cases body with
      | none => exact ⟨_, _, rfl⟩
      | some data =>
          cases h : data.access_token with
          | none => simp [h]
          | some tok => simp [h]
  | err status body => exact ⟨_, _, rfl⟩
  | transport msg => exact ⟨_, _, rfl⟩

/-- Concrete fixture: a well-formed broker configuration. -/
def wCfg : KeycloakConfig := ⟨some "cid", none, some "offtok"⟩

/-- Concrete fixture: a state with a cached refresh token. -/
def wStR : KCState := ⟨some "A", some "R", none⟩

/-- Concrete fixture: a well-formed broker success body. -/
def wDataB : TokenData := ⟨some "B", none, none, some 300, none⟩

/-- C1: with no cached refresh token `refreshAccessToken` delegates entirely
to `authenticateWithOfflineToken`; and on any failing refresh attempt
(non-2xx response or transport error) it makes exactly one subsequent call
to `authenticateWithOfflineToken` and returns exactly what that fallback
produced (given the configuration the constructor validates: a truthy
offline token and client id). -/
theorem C1_refresh_failure_falls_back_once (cfg : KeycloakConfig)
    (st : KCState) (now now2 : Nat) (ro oo : FetchOutcome)
    (hoff : truthyS cfg.offlineToken = true)
    (hcid : truthyS cfg.clientId = true) :
    (truthyS st.refreshToken = false →
      KeycloakAuth.refreshAccessToken cfg st now ro now2 oo =
        (KeycloakAuth.authenticateWithOfflineToken cfg st now2 oo, 1)) ∧
    ((∃ s b, ro = .err s b) ∨ (∃ m, ro = .transport m) →
      KeycloakAuth.refreshAccessToken cfg st now ro now2 oo =
        (KeycloakAuth.authenticateWithOfflineToken cfg st now2 oo, 1)) := by
  constructor
  · intro h
    unfold KeycloakAuth.refreshAccessToken
    rw [h]
    simp
  · intro h
    by_cases hr : truthyS st.refreshToken
    · obtain ⟨r, st1, hok⟩ := kcOffline_isOk cfg st now2 oo hoff hcid
      rcases h with ⟨s, b, rfl⟩ | ⟨m, rfl⟩
      · unfold KeycloakAuth.refreshAccessToken
        rw [hr, hok]
        simp
      · unfold KeycloakAuth.refreshAccessToken
        rw [hr]
        simp
    · unfold KeycloakAuth.refreshAccessToken
      rw [eq_false_of_ne_true hr]
      simp

/-- C1 witness: a concrete 500 refresh failure falls back once to the
offline exchange and returns its result verbatim. -/
theorem C1_refresh_failure_falls_back_once_witness :
    KeycloakAuth.refreshAccessToken wCfg wStR 5 (.err 500 (.raw "boom")) 7
        (.ok (some wDataB)) =
      (KeycloakAuth.authenticateWithOfflineToken wCfg wStR 7
        (.ok (some wDataB)), 1) :=
  (C1_refresh_failure_falls_back_once wCfg wStR 5 7 (.err 500 (.raw "boom"))
    (.ok (some wDataB)) rfl rfl).2 (Or.inl ⟨500, .raw "boom", rfl⟩)

/-- C3: for every token-endpoint response or transport failure the internal
exchange methods return a tagged result instead of raising: the offline
exchange returns normally exactly when the offline token and client id are
truthy (and when one is absent the error is raised before the outcome is
even consulted), the refresh path never raises under that configuration,
both direct-token exchanges return normally exactly when the personal access
token is truthy, and a failed result is raised only by the top-level
`getAuthHeader`. -/
theorem C3_exchange_methods_never_raise :
    (∀ cfg st now o,
      exceptOk (KeycloakAuth.authenticateWithOfflineToken cfg st now o) =
        (truthyS cfg.offlineToken && truthyS cfg.clientId)) ∧
    (∀ cfg st now o o',
      (truthyS cfg.offlineToken && truthyS cfg.clientId) = false →
      KeycloakAuth.authenticateWithOfflineToken cfg st now o =
        KeycloakAuth.authenticateWithOfflineToken cfg st now o') ∧
    (∀ cfg st now ro now2 oo,
      truthyS cfg.offlineToken = true → truthyS cfg.clientId = true →
      exceptOk (KeycloakAuth.refreshAccessToken cfg st now ro now2 oo).1 =
        true) ∧
    (∀ pat st now o,
      exceptOk (SimpleAuth.authenticateWithPersonalToken pat st now o) =
        truthyS pat) ∧
    (∀ pat st now o,
      exceptOk (ServerSimpleAuth.authenticateWithPersonalToken pat st now o) =
        truthyS pat) ∧
    (∀ pat st now o r st1,
      SimpleAuth.getAccessToken pat st now o = .ok (r, st1) →
      r.success = false →
      SimpleAuth.getAuthHeader pat st now o =
        .error ("Authentication failed: " ++
          jsString (orTruthyS r.errorDescription r.error))) := by
  refine ⟨?_, ?_, ?_, ?_, ?_, ?_⟩
  · intro cfg st now o
    by_cases h1 : truthyS cfg.offlineToken
    · by_cases h2 : truthyS cfg.clientId
      · obtain ⟨r, st1, hok⟩ := kcOffline_isOk cfg st now o h1 h2
        rw [hok, h1, h2]
        rfl
      · unfold KeycloakAuth.authenticateWithOfflineToken
        rw [h1, eq_false_of_ne_true h2]
        rfl
    · unfold KeycloakAuth.authenticateWithOfflineToken
      rw [eq_false_of_ne_true h1]
      simp [eq_false_of_ne_true h1, exceptOk]
  · intro cfg st now o o' h
    unfold KeycloakAuth.authenticateWithOfflineToken
    rcases Bool.and_eq_false_iff.mp h with h1 | h2
    · rw [h1]
      rfl
    · by_cases h1 : truthyS cfg.offlineToken
      · rw [h1, h2]
        rfl
      · rw [eq_false_of_ne_true h1]
        rfl
  · intro cfg st now ro now2 oo h1 h2
    obtain ⟨r, st1, hok⟩ := kcOffline_isOk cfg st now2 oo h1 h2
    unfold KeycloakAuth.refreshAccessToken
    by_cases hr : truthyS st.refreshToken
    · rw [hr]
      cases ro with
      | ok body =>
          cases body with
          | none => rw [hok]; rfl
          | some data => rfl
      | err status body => simp [hok]; rfl
      | transport msg => simp [hok]; rfl
    · rw [eq_false_of_ne_true hr]
      simp [hok]
      rfl
  · intro pat st now o
    by_cases hp : truthyS pat
    · unfold SimpleAuth.authenticateWithPersonalToken
      rw [hp]
      cases o with
      | ok body => cases body <;> rfl
      | err status body =>
          by_cases hs : (status == 401 || status == 403) = true <;>
            simp [hs] <;> rfl
      | transport msg => rfl
    · unfold SimpleAuth.authenticateWithPersonalToken
      rw [eq_false_of_ne_true hp]
      simp [eq_false_of_ne_true hp, exceptOk]
  · intro pat st now o
    by_cases hp : truthyS pat
    · unfold ServerSimpleAuth.authenticateWithPersonalToken
      rw [hp]
      cases o with
      | ok body =>
          cases body with
          | none => rfl
          | some data =>
              by_cases ht :
                  (truthyS data.access_token || truthyS data.token) = true <;>
                simp [ht] <;> rfl
      | err status body =>
          by_cases hs : (status == 403) = true <;> simp [hs] <;> rfl
      | transport msg => rfl
    · unfold ServerSimpleAuth.authenticateWithPersonalToken
      rw [eq_false_of_ne_true hp]
      simp [eq_false_of_ne_true hp, exceptOk]
  · intro pat st now o r st1 hok hfail
    unfold SimpleAuth.getAuthHeader
    rw [hok]
    simp [hfail]

/-- C3 witness: a concrete 500 response to the offline exchange returns
normally, a missing client id raises independently of the outcome, and a
concrete failed direct exchange makes `getAuthHeader` raise the formatted
error. -/
theorem C3_exchange_methods_never_raise_witness :
    exceptOk (KeycloakAuth.authenticateWithOfflineToken wCfg KCState.empty 0
        (.err 500 (.raw "boom"))) =
      (truthyS wCfg.offlineToken && truthyS wCfg.clientId) :=
  C3_exchange_methods_never_raise.1 wCfg KCState.empty 0 (.err 500 (.raw "boom"))

/-- C4: in the `simple-auth.js` variant every 401 or 403 token-endpoint
response makes `authenticateWithPersonalToken` cache the personal access
token itself with a one-hour default expiry and return a success result
carrying an informational note, with the returned access token equal to the
personal access token. -/
theorem C4_direct_401_403_soft_success (pat : Option String) (st : SAState)
    (now status : Nat) (body : ErrBody)
    (hp : truthyS pat = true) (hs : status = 401 ∨ status = 403) :
    SimpleAuth.authenticateWithPersonalToken pat st now (.err status body) =
      .ok ({ success := true, accessToken := pat, expiresIn := some 3600,
             tokenType := some "Bearer", note := some SimpleAuth.directNote },
           ⟨pat, some (now + 3600 * 1000)⟩) := by
  unfold SimpleAuth.authenticateWithPersonalToken
  rw [hp]
  rcases hs with h | h <;> subst h <;> rfl

/-- C4 witness: a concrete 403 response with personal access token `P`. -/
theorem C4_direct_401_403_soft_success_witness :
    SimpleAuth.authenticateWithPersonalToken (some "P") SAState.empty 10
        (.err 403 (.raw "forbidden")) =
      .ok ({ success := true, accessToken := some "P", expiresIn := some 3600,
             tokenType := some "Bearer", note := some SimpleAuth.directNote },
           ⟨some "P", some (10 + 3600 * 1000)⟩) :=
  C4_direct_401_403_soft_success (some "P") SAState.empty 10 403
    (.raw "forbidden") rfl (Or.inr rfl)

/-- C5: in the `simple-auth.js` variant every transport failure makes
`authenticateWithPersonalToken` cache the personal access token, return a
success result with the network-error-fallback note, and when the cached
token was not valid (so that a request is attempted at all) `getAuthHeader`
resolves to the string `Bearer` followed by the personal access token. -/
theorem C5_direct_transport_resolves_bearer (pat : Option String)
    (st : SAState) (now : Nat) (msg : String) (p : String)
    (hp : pat = some p) (hpt : truthyS pat = true)
    (hv : SimpleAuth.hasValidToken st now = false) :
    SimpleAuth.authenticateWithPersonalToken pat st now (.transport msg) =
      .ok ({ success := true, accessToken := pat, expiresIn := some 3600,
             tokenType := some "Bearer",
             note := some SimpleAuth.fallbackNote },
           ⟨pat, some (now + 3600 * 1000)⟩) ∧
    SimpleAuth.getAuthHeader pat st now (.transport msg) =
      .ok ("Bearer " ++ p, ⟨pat, some (now + 3600 * 1000)⟩) := by
  have hauth : SimpleAuth.authenticateWithPersonalToken pat st now
      (.transport msg) =
      .ok ({ success := true, accessToken := pat, expiresIn := some 3600,
             tokenType := some "Bearer",
             note := some SimpleAuth.fallbackNote },
           ⟨pat, some (now + 3600 * 1000)⟩) := by
    unfold SimpleAuth.authenticateWithPersonalToken
    rw [hpt]
    rfl
  refine ⟨hauth, ?_⟩
  unfold SimpleAuth.getAuthHeader SimpleAuth.getAccessToken
  rw [hv]
  simp only [Bool.false_eq_true, if_false, hauth]
  subst hp
  rfl

/-- C5 witness: with personal access token `P`, an empty cache and a
concrete transport error, the header resolves to `Bearer P`. -/
theorem C5_direct_transport_resolves_bearer_witness :
    SimpleAuth.getAuthHeader (some "P") SAState.empty 10
        (.transport "ECONNREFUSED") =
      .ok ("Bearer " ++ "P", ⟨some "P", some (10 + 3600 * 1000)⟩) :=
  (C5_direct_transport_resolves_bearer (some "P") SAState.empty 10
    "ECONNREFUSED" "P" rfl rfl rfl).2

/-- After caching an expiry of `t0 + N * 1000` with `60 < N`, the token is
valid at `t0` (`simple-auth.js` validity rule). -/
theorem saValid_at_issue (a : Option String) (t0 N : Nat)
    (ha : truthyS a = true) (hN : 60 < N) :
    SimpleAuth.hasValidToken ⟨a, some (t0 + N * 1000)⟩ t0 = true := by
  unfold SimpleAuth.hasValidToken
  rw [ha]
  have h1 : truthyN (some (t0 + N * 1000)) = true := by
    simp [truthyN]
    omega
  rw [h1]
  simp
  omega

/-- After caching an expiry of `t0 + N * 1000` with `60 < N`, the token is
invalid at every time beyond `t0 + (N - 60) * 1000`. -/
theorem saInvalid_after_window (a : Option String) (t0 N t : Nat)
    (ha : truthyS a = true) (hN : 60 < N)
    (ht : t0 + (N - 60) * 1000 < t) :
    SimpleAuth.hasValidToken ⟨a, some (t0 + N * 1000)⟩ t = false := by
  unfold SimpleAuth.hasValidToken
  rw [ha]
  have h1 : truthyN (some (t0 + N * 1000)) = true := by
    simp [truthyN]
    omega
  rw [h1]
  simp
  omega

/-- Same validity window for the `keycloak-auth.js` rule. -/
theorem kcValid_at_issue (a : Option String) (rt : Option String) (t0 N : Nat)
    (ha : truthyS a = true) (hN : 60 < N) :
    KeycloakAuth.hasValidToken ⟨a, rt, some (t0 + N * 1000)⟩ t0 = true := by
  unfold KeycloakAuth.hasValidToken
  rw [ha]
  have h1 : truthyN (some (t0 + N * 1000)) = true := by
    simp [truthyN]
    omega
  rw [h1]
  simp
  omega

/-- Same invalidity beyond the window for the `keycloak-auth.js` rule. -/
theorem kcInvalid_after_window (a : Option String) (rt : Option String)
    (t0 N t : Nat) (ha : truthyS a = true) (hN : 60 < N)
    (ht : t0 + (N - 60) * 1000 < t) :
    KeycloakAuth.hasValidToken ⟨a, rt, some (t0 + N * 1000)⟩ t = false := by
  unfold KeycloakAuth.hasValidToken
  rw [ha]
  have h1 : truthyN (some (t0 + N * 1000)) = true := by
    simp [truthyN]
    omega
  rw [h1]
  simp
  omega

/-- The token a `simple-auth.js` HTTP-success exchange caches is always
truthy (a token field when one is truthy, else the truthy personal access
token). -/
theorem saCachedTokenTruthy (pat : Option String) (data : TokenData)
    (hp : truthyS pat = true) :
    truthyS (if (truthyS data.access_token || truthyS data.token) = true then
      orTruthyS data.access_token data.token else pat) = true := by
  by_cases h1 : truthyS data.access_token
  · simp [h1, orTruthyS]
  · by_cases h2 : truthyS data.token
    · simp [h1, h2, orTruthyS]
    · simp [h1, h2, hp]

/-- C2 counterexample: the claim asserts that after caching a response with
`expires_in = N` the token is valid immediately; with `N = 30` (a response
`access_token T, expires_in 30` cached by the direct exchange at time 0) the
60-second buffer makes `hasValidToken` false immediately. -/
theorem C2_short_lifetime_invalid_immediately :
    SimpleAuth.authenticateWithPersonalToken (some "P") SAState.empty 0
        (.ok (some ⟨some "T", none, none, some 30, none⟩)) =
      .ok ({ success := true, accessToken := some "T", expiresIn := some 30,
             tokenType := some "Bearer" }, ⟨some "T", some 30000⟩) ∧
    SimpleAuth.hasValidToken ⟨some "T", some 30000⟩ 0 = false :=
  ⟨rfl, rfl⟩

/-- C2 amended: for both variants `hasValidToken` is true iff a non-empty
access token is cached and (no nonzero expiry is recorded, or the recorded
expiry is more than 60 seconds after the current time); and after caching an
exchange response with `expires_in = N` at issue time `t0`, provided
`N > 60` (for smaller lifetimes the 60-second buffer already invalidates the
fresh token), `hasValidToken` is true immediately and false at any time
later than `t0 + (N - 60)` seconds. -/
theorem C2_validity_window_amended :
    (∀ st now, SimpleAuth.hasValidToken st now = true ↔
      (truthyS st.accessToken = true ∧
        (truthyN st.tokenExpiry = false ∨
          st.tokenExpiry.getD 0 > now + 60 * 1000))) ∧
    (∀ st now, KeycloakAuth.hasValidToken st now = true ↔
      (truthyS st.accessToken = true ∧
        (truthyN st.tokenExpiry = false ∨
          st.tokenExpiry.getD 0 > now + 60 * 1000))) ∧
    (∀ pat st t0 data N r st1, truthyS pat = true →
      data.expires_in = some N → 60 < N →
      SimpleAuth.authenticateWithPersonalToken pat st t0 (.ok (some data)) =
        .ok (r, st1) →
      SimpleAuth.hasValidToken st1 t0 = true ∧
      ∀ t, t0 + (N - 60) * 1000 < t →
        SimpleAuth.hasValidToken st1 t = false) ∧
    (∀ cfg st t0 data N r st1 tok, data.access_token = some tok →
      truthyS (some tok) = true → data.expires_in = some N → 60 < N →
      KeycloakAuth.authenticateWithOfflineToken cfg st t0 (.ok (some data)) =
        .ok (r, st1) →
      KeycloakAuth.hasValidToken st1 t0 = true ∧
      ∀ t, t0 + (N - 60) * 1000 < t →
        KeycloakAuth.hasValidToken st1 t = false) := by
  refine ⟨?_, ?_, ?_, ?_⟩
  · intro st now
    unfold SimpleAuth.hasValidToken
    by_cases h1 : truthyS st.accessToken
    · by_cases h2 : truthyN st.tokenExpiry
      · simp [h1, h2]
      · simp [h1, eq_false_of_ne_true h2]
    · simp [eq_false_of_ne_true h1]
  · intro st now
    unfold KeycloakAuth.hasValidToken
    by_cases h1 : truthyS st.accessToken
    · by_cases h2 : truthyN st.tokenExpiry
      · simp [h1, h2]
      · simp [h1, eq_false_of_ne_true h2]
    · simp [eq_false_of_ne_true h1]
  · intro pat st t0 data N r st1 hp hN60 hN hok
    have hNt : truthyN data.expires_in = true := by
      rw [hN60]
      simp [truthyN]
      omega
    have hNtrue : truthyN (some N) = true := by
      simp [truthyN]
      omega
    have hst1 : st1 = ⟨if (truthyS data.access_token || truthyS data.token) = true
        then orTruthyS data.access_token data.token else pat,
        some (t0 + N * 1000)⟩ := by
      unfold SimpleAuth.authenticateWithPersonalToken at hok
      rw [hp] at hok
      simp only [Bool.not_true, Bool.false_eq_true, if_false] at hok
      injection hok with h
      injection h with h1 h2
      rw [← h2, hN60]
      simp [hNtrue]
    subst hst1
    have htr := saCachedTokenTruthy pat data hp
    exact ⟨saValid_at_issue _ t0 N htr hN,
      fun t ht => saInvalid_after_window _ t0 N t htr hN ht⟩
  · intro cfg st t0 data N r st1 tok htok htr hN60 hN hok
    have hNt : truthyN data.expires_in = true := by
      rw [hN60]
      simp [truthyN]
      omega
    have hNtrue : truthyN (some N) = true := by
      simp [truthyN]
      omega
    have hst1 : st1 = ⟨data.access_token, data.refresh_token,
        some (t0 + N * 1000)⟩ := by
      unfold KeycloakAuth.authenticateWithOfflineToken at hok
      by_cases h1 : truthyS cfg.offlineToken
      · by_cases h2 : truthyS cfg.clientId
        · rw [h1, h2] at hok
          simp only [Bool.not_true, Bool.false_eq_true, if_false] at hok
          rw [htok] at hok
          simp only [hNt, hN60, if_true] at hok
          injection hok with h
          injection h with ha hb
          rw [← hb, htok]
          simp [hNtrue]
        · rw [h1, eq_false_of_ne_true h2] at hok
          exact absurd hok (by simp)
      · rw [eq_false_of_ne_true h1] at hok
        exact absurd hok (by simp)
    subst hst1
    rw [htok]
    exact ⟨kcValid_at_issue _ _ t0 N htr hN,
      fun t ht => kcInvalid_after_window _ _ t0 N t htr hN ht⟩

/-- C2 witness: a direct exchange caching `expires_in = 300` at time 1000 is
valid immediately. -/
theorem C2_validity_window_amended_witness :
    SimpleAuth.hasValidToken ⟨some "T", some 301000⟩ 1000 = true :=
  ((C2_validity_window_amended.2.2.1 (some "P") SAState.empty 1000
    ⟨some "T", none, none, some 300, none⟩ 300
    { success := true, accessToken := some "T", expiresIn := some 300,
      tokenType := some "Bearer" }
    ⟨some "T", some 301000⟩ rfl rfl (by decide) rfl).1)

/-- Final token storage of a direct exchange call (unchanged when the call
throws, since both variants throw before touching the storage). -/
def SAfinalState (st : SAState) : Except String (AuthResult × SAState) → SAState
  | .ok (_, s) => s
  | .error _ => st

/-- Final token storage of a brokered exchange call (unchanged when the call
throws, since the config check precedes every mutation). -/
def KCfinalState (st : KCState) : Except String (AuthResult × KCState) → KCState
  | .ok (_, s) => s
  | .error _ => st

/-- C6 counterexample: the claim asserts that whenever `expires_in` is
present the cached expiry is `now + expires_in` seconds; a 2xx body with
`expires_in = 0` (present) is cached with the one-hour default instead,
because the source tests JavaScript truthiness rather than presence. -/
theorem C6_zero_expires_in_counterexample :
    (SAfinalState SAState.empty
        (SimpleAuth.authenticateWithPersonalToken (some "P") SAState.empty 0
          (.ok (some ⟨some "T", none, none, some 0, none⟩)))).tokenExpiry ≠
      some (0 + 0 * 1000) ∧
    (SAfinalState SAState.empty
        (SimpleAuth.authenticateWithPersonalToken (some "P") SAState.empty 0
          (.ok (some ⟨some "T", none, none, some 0, none⟩)))).tokenExpiry =
      some 3600000 := by
  constructor
  · intro h
    simp [SimpleAuth.authenticateWithPersonalToken, SAfinalState, truthyS,
      truthyN] at h
  · rfl

/-- C6 amended: in the `simple-auth.js` variant, every HTTP-success response
whose JSON body carries a non-empty `access_token` (or, failing that, a
non-empty `token`) caches that value, and one with neither caches the
personal access token itself; the cached expiry is `now + expires_in`
seconds when a truthy (nonzero) `expires_in` is present and `now + 3600`
seconds otherwise (so a present but zero `expires_in` also yields the
one-hour default). -/
theorem C6_direct_success_caching_amended (pat : Option String) (st : SAState)
    (now : Nat) (data : TokenData) (hp : truthyS pat = true) :
    (truthyS data.access_token = true →
      (SAfinalState st (SimpleAuth.authenticateWithPersonalToken pat st now
        (.ok (some data)))).accessToken = data.access_token) ∧
    (truthyS data.access_token = false → truthyS data.token = true →
      (SAfinalState st (SimpleAuth.authenticateWithPersonalToken pat st now
        (.ok (some data)))).accessToken = data.token) ∧
    (truthyS data.access_token = false → truthyS data.token = false →
      (SAfinalState st (SimpleAuth.authenticateWithPersonalToken pat st now
        (.ok (some data)))).accessToken = pat) ∧
    (truthyN data.expires_in = true →
      (SAfinalState st (SimpleAuth.authenticateWithPersonalToken pat st now
        (.ok (some data)))).tokenExpiry =
        some (now + data.expires_in.getD 0 * 1000)) ∧
    (truthyN data.expires_in = false →
      (SAfinalState st (SimpleAuth.authenticateWithPersonalToken pat st now
        (.ok (some data)))).tokenExpiry = some (now + 3600 * 1000)) := by
  have hfs : SAfinalState st (SimpleAuth.authenticateWithPersonalToken pat st
      now (.ok (some data))) =
      ⟨if (truthyS data.access_token || truthyS data.token) = true then
         orTruthyS data.access_token data.token else pat,
       some (if truthyN data.expires_in = true then
         now + data.expires_in.getD 0 * 1000 else now + 3600 * 1000)⟩ := by
    unfold SimpleAuth.authenticateWithPersonalToken
    rw [hp]
    rfl
  refine ⟨?_, ?_, ?_, ?_, ?_⟩
  · intro h1
    rw [hfs]
    simp [h1, orTruthyS]
  · intro h1 h2
    rw [hfs]
    simp [h1, h2, orTruthyS]
  · intro h1 h2
    rw [hfs]
    simp [h1, h2]
  · intro h1
    rw [hfs]
    simp [h1]
  · intro h1
    rw [hfs]
    simp [h1]

/-- C6 witness: a 2xx body `access_token T, expires_in 120` caches `T` with
an expiry 120 seconds after issuance. -/
theorem C6_direct_success_caching_amended_witness :
    (SAfinalState SAState.empty
      (SimpleAuth.authenticateWithPersonalToken (some "P") SAState.empty 50
        (.ok (some ⟨some "T", none, none, some 120, none⟩)))).accessToken =
      (some "T" : Option String) :=
  (C6_direct_success_caching_amended (some "P") SAState.empty 50
    ⟨some "T", none, none, some 120, none⟩ rfl).1 rfl

/-- C7 counterexample: the claim asserts that a successful refresh whose
response supplies a `refresh_token` replaces the cached one; a refresh
response carrying `refresh_token` as the empty string (supplied, but falsy)
leaves the old cached refresh token in place. -/
theorem C7_empty_refresh_token_counterexample :
    KCfinalState wStR
        (KeycloakAuth.refreshAccessToken wCfg wStR 0
          (.ok (some ⟨some "B", some "", none, none, none⟩)) 0
          (.transport "unused")).1 =
      ⟨some "B", some "R", none⟩ ∧
    (some "R" : Option String) ≠ some "" := by
  exact ⟨rfl, by decide⟩

/-- C7 amended: every successful refresh exchange updates the access token
to the one in the response, recomputes the expiry only when the response
carries a truthy `expires_in`, keeps the previously cached refresh token
whenever the response does not supply a truthy (non-empty) `refresh_token`,
and replaces it when it does. -/
theorem C7_refresh_frame_amended (cfg : KeycloakConfig) (st : KCState)
    (now now2 : Nat) (oo : FetchOutcome) (data : TokenData)
    (hr : truthyS st.refreshToken = true) :
    ((KeycloakAuth.refreshAccessToken cfg st now (.ok (some data)) now2 oo).2 =
      0) ∧
    ((KCfinalState st (KeycloakAuth.refreshAccessToken cfg st now
        (.ok (some data)) now2 oo).1).accessToken = data.access_token) ∧
    (truthyS data.refresh_token = false →
      (KCfinalState st (KeycloakAuth.refreshAccessToken cfg st now
        (.ok (some data)) now2 oo).1).refreshToken = st.refreshToken) ∧
    (truthyS data.refresh_token = true →
      (KCfinalState st (KeycloakAuth.refreshAccessToken cfg st now
        (.ok (some data)) now2 oo).1).refreshToken = data.refresh_token) ∧
    (truthyN data.expires_in = true →
      (KCfinalState st (KeycloakAuth.refreshAccessToken cfg st now
        (.ok (some data)) now2 oo).1).tokenExpiry =
        some (now + data.expires_in.getD 0 * 1000)) ∧
    (truthyN data.expires_in = false →
      (KCfinalState st (KeycloakAuth.refreshAccessToken cfg st now
        (.ok (some data)) now2 oo).1).tokenExpiry = st.tokenExpiry) := by
  have hfs : KCfinalState st (KeycloakAuth.refreshAccessToken cfg st now
      (.ok (some data)) now2 oo).1 =
      ⟨data.access_token,
       if truthyS data.refresh_token = true then data.refresh_token
       else st.refreshToken,
       if truthyN data.expires_in = true then
         some (now + data.expires_in.getD 0 * 1000) else st.tokenExpiry⟩ := by
    unfold KeycloakAuth.refreshAccessToken
    rw [hr]
    rfl
  have hcount : (KeycloakAuth.refreshAccessToken cfg st now
      (.ok (some data)) now2 oo).2 = 0 := by
    unfold KeycloakAuth.refreshAccessToken
    rw [hr]
    rfl
  refine ⟨hcount, ?_, ?_, ?_, ?_, ?_⟩
  · rw [hfs]
  · intro h
    rw [hfs]
    simp [h]
  · intro h
    rw [hfs]
    simp [h]
  · intro h
    rw [hfs]
    simp [h]
  · intro h
    rw [hfs]
    simp [h]

/-- C7 witness: a concrete refresh response with only an access token keeps
the cached refresh token `R`. -/
theorem C7_refresh_frame_amended_witness :
    (KCfinalState wStR (KeycloakAuth.refreshAccessToken wCfg wStR 3
        (.ok (some ⟨some "B", none, none, none, none⟩)) 4
        (.transport "unused")).1).refreshToken = (some "R" : Option String) :=
  (C7_refresh_frame_amended wCfg wStR 3 4 (.transport "unused")
    ⟨some "B", none, none, none, none⟩ rfl).2.2.1 rfl

/-- C8 counterexample: the claim asserts that every exchange returning a
failure result leaves the token state exactly as it was.  From the reachable
state cached by a first successful offline exchange
(`access_token A, refresh_token R, expires_in 100` at time 0), a second
offline exchange receiving an HTTP-success response with an empty JSON body
returns a failure result yet has already overwritten the state (access and
refresh token cleared). -/
theorem C8_failure_mutates_state_counterexample :
    KCfinalState KCState.empty
        (KeycloakAuth.authenticateWithOfflineToken wCfg KCState.empty 0
          (.ok (some ⟨some "A", some "R", none, some 100, none⟩))) =
      ⟨some "A", some "R", some 100000⟩ ∧
    KeycloakAuth.authenticateWithOfflineToken wCfg
        ⟨some "A", some "R", some 100000⟩ 200000
        (.ok (some ⟨none, none, none, none, none⟩)) =
      .ok (networkFailure lengthOfUndefinedMsg, ⟨none, none, some 100000⟩) ∧
    (networkFailure lengthOfUndefinedMsg).success = false ∧
    (⟨none, none, some 100000⟩ : KCState) ≠
      ⟨some "A", some "R", some 100000⟩ := by
  exact ⟨rfl, rfl, rfl, by decide⟩

/-- C8 amended: the token state starts empty and is populated or replaced
only by a successful (or policy-deemed-successful) exchange; every exchange
that returns a failure result leaves the state exactly as it was, with one
exception forced by the code: the brokered offline exchange on an
HTTP-success response whose body lacks an `access_token` overwrites the
state (tokens taken from the body, expiry possibly updated) before its
internal TypeError is converted into a `network_error` failure result. -/
theorem C8_failure_leaves_state_amended :
    (∀ cfg st now o r st1,
      (∀ d, o = FetchOutcome.ok (some d) → d.access_token.isSome = true) →
      KeycloakAuth.authenticateWithOfflineToken cfg st now o = .ok (r, st1) →
      r.success = false → st1 = st) ∧
    (∀ cfg st now ro now2 oo r st1,
      (∀ d, oo = FetchOutcome.ok (some d) → d.access_token.isSome = true) →
      (KeycloakAuth.refreshAccessToken cfg st now ro now2 oo).1 =
        .ok (r, st1) →
      r.success = false → st1 = st) ∧
    (∀ pat st now o r st1,
      SimpleAuth.authenticateWithPersonalToken pat st now o = .ok (r, st1) →
      r.success = false → st1 = st) ∧
    (∀ pat st now o r st1,
      ServerSimpleAuth.authenticateWithPersonalToken pat st now o =
        .ok (r, st1) →
      r.success = false → st1 = st) := by
  have koff : ∀ cfg st now o r st1,
      (∀ d, o = FetchOutcome.ok (some d) → d.access_token.isSome = true) →
      KeycloakAuth.authenticateWithOfflineToken cfg st now o = .ok (r, st1) →
      r.success = false → st1 = st := by
    intro cfg st now o r st1 hbody hok hfail
    unfold KeycloakAuth.authenticateWithOfflineToken at hok
    by_cases h1 : truthyS cfg.offlineToken
    · by_cases h2 : truthyS cfg.clientId
      · rw [h1, h2] at hok
        simp only [Bool.not_true, Bool.false_eq_true, if_false] at hok
        cases o with
        | ok body =>
            cases body with
            | none =>
                injection hok with h
                injection h with ha hb
                exact hb.symm
            | some data =>
                obtain ⟨u, rt, tk, ei, tt⟩ := data
                cases u with
                | none =>
                    have := hbody ⟨none, rt, tk, ei, tt⟩ rfl
                    simp at this
                | some tok =>
                    injection hok with h
                    injection h with ha hb
                    rw [← ha] at hfail
                    simp at hfail
        | err status body =>
            injection hok with h
            injection h with ha hb
            exact hb.symm
        | transport msg =>
            injection hok with h
            injection h with ha hb
            exact hb.symm
      · rw [h1, eq_false_of_ne_true h2] at hok
        exact absurd hok (by simp)
    · rw [eq_false_of_ne_true h1] at hok
      exact absurd hok (by simp)
  refine ⟨koff, ?_, ?_, ?_⟩
  · intro cfg st now ro now2 oo r st1 hbody hok hfail
    unfold KeycloakAuth.refreshAccessToken at hok
    by_cases hr : truthyS st.refreshToken
    · rw [hr] at hok
      simp only [Bool.not_true, Bool.false_eq_true, if_false] at hok
      cases ro with
      | ok body =>
          cases body with
          | none => exact koff cfg st now2 oo r st1 hbody hok hfail
          | some data =>
              injection hok with h
              injection h with ha hb
              rw [← ha] at hfail
              simp at hfail
      | err status body =>
          cases hoff : KeycloakAuth.authenticateWithOfflineToken cfg st now2 oo with
          | ok p =>
              rw [hoff] at hok
              have hok2 : Except.ok p = Except.ok (r, st1) := hok
              injection hok2 with hp
              rw [hp] at hoff
              exact koff cfg st now2 oo r st1 hbody hoff hfail
          | error e =>
              rw [hoff] at hok
              have hok2 : (Except.error e : Except String (AuthResult × KCState)) =
                  Except.ok (r, st1) := hok
              exact absurd hok2 (by simp)
      | transport msg => exact koff cfg st now2 oo r st1 hbody hok hfail
    · rw [eq_false_of_ne_true hr] at hok
      simp only [Bool.not_false, if_true] at hok
      exact koff cfg st now2 oo r st1 hbody hok hfail
  · intro pat st now o r st1 hok hfail
    unfold SimpleAuth.authenticateWithPersonalToken at hok
    by_cases hp : truthyS pat
    · rw [hp] at hok
      simp only [Bool.not_true, Bool.false_eq_true, if_false] at hok
      split at hok
      · injection hok with h
        injection h with ha hb
        rw [← ha] at hfail
        simp at hfail
      · injection hok with h
        injection h with ha hb
        rw [← ha] at hfail
        simp at hfail
      · split at hok
        · injection hok with h
          injection h with ha hb
          rw [← ha] at hfail
          simp at hfail
        · injection hok with h
          injection h with ha hb
          exact hb.symm
      · injection hok with h
        injection h with ha hb
        rw [← ha] at hfail
        simp at hfail
    · rw [eq_false_of_ne_true hp] at hok
      exact absurd hok (by simp)
  · intro pat st now o r st1 hok hfail
    unfold ServerSimpleAuth.authenticateWithPersonalToken at hok
    by_cases hp : truthyS pat
    · rw [hp] at hok
      simp only [Bool.not_true, Bool.false_eq_true, if_false] at hok
      split at hok
      · split at hok
        · injection hok with h
          injection h with ha hb
          rw [← ha] at hfail
          simp at hfail
        · injection hok with h
          injection h with ha hb
          exact hb.symm
      · injection hok with h
        injection h with ha hb
        exact hb.symm
      · split at hok
        · injection hok with h
          injection h with ha hb
          exact hb.symm
        · injection hok with h
          injection h with ha hb
          exact hb.symm
      · injection hok with h
        injection h with ha hb
        exact hb.symm
    · rw [eq_false_of_ne_true hp] at hok
      exact absurd hok (by simp)

/-- C8 witness: a concrete 500 response to the direct exchange leaves the
concrete prior state untouched. -/
theorem C8_failure_leaves_state_amended_witness :
    (⟨some "X", some 5⟩ : SAState) = ⟨some "X", some 5⟩ :=
  C8_failure_leaves_state_amended.2.2.1 (some "P") ⟨some "X", some 5⟩ 0
    (.err 500 (.raw "boom"))
    { success := false, error := some "unknown",
      errorDescription := some "boom", status := some 500 }
    ⟨some "X", some 5⟩ rfl rfl

/-- One externally driven call on a `KeycloakAuth` instance: an offline
exchange, a refresh (with the outcome its optional offline fallback would
receive), or `clearTokens`. -/
inductive KCEvent where
  | offline (now : Nat) (outcome : FetchOutcome)
  | refresh (now : Nat) (refreshOutcome : FetchOutcome)
      (now2 : Nat) (offlineOutcome : FetchOutcome)
  | clear
deriving DecidableEq, Repr

/-- State reached after one event (a throwing call leaves the storage as it
was, since both throws precede any mutation). -/
def kcStep (cfg : KeycloakConfig) (st : KCState) : KCEvent → KCState
  | .offline now outcome =>
      KCfinalState st
        (KeycloakAuth.authenticateWithOfflineToken cfg st now outcome)
  | .refresh now ro now2 oo =>
      KCfinalState st (KeycloakAuth.refreshAccessToken cfg st now ro now2 oo).1
  | .clear => KeycloakAuth.clearTokens st

/-- State reached from construction after a list of events (most recent
event first). -/
def kcRun (cfg : KeycloakConfig) : List KCEvent → KCState
  | [] => KCState.empty
  | e :: es => kcStep cfg (kcRun cfg es) e

/-- The (issue time, parsed success body) pairs an event processes. -/
def KCEvent.processes : KCEvent → List (Nat × TokenData)
  | .offline now (.ok (some d)) => [(now, d)]
  | .offline _ _ => []
  | .refresh now ro now2 oo =>
      (match ro with | .ok (some d) => [(now, d)] | _ => []) ++
      (match oo with | .ok (some d) => [(now2, d)] | _ => [])
  | .clear => []

/-- Whether an event processed a response reporting a truthy lifetime that
derives the expiry value `x` as issue time plus lifetime. -/
def KCEvent.carriesExpiry (ev : KCEvent) (x : Nat) : Bool :=
  ev.processes.any (fun p =>
    truthyN p.2.expires_in && decide (x = p.1 + p.2.expires_in.getD 0 * 1000))

/-- Whether an event processed a response whose body supplied the access
token string `s`. -/
def KCEvent.carriesAccess (ev : KCEvent) (s : String) : Bool :=
  ev.processes.any (fun p => p.2.access_token == some s)

/-- Whether any event of a trace derives expiry `x`. -/
def anyCarriesExpiry (events : List KCEvent) (x : Nat) : Bool :=
  events.any (fun ev => KCEvent.carriesExpiry ev x)

/-- Whether any event of a trace supplied access token `s`. -/
def anyCarriesAccess (events : List KCEvent) (s : String) : Bool :=
  events.any (fun ev => KCEvent.carriesAccess ev s)

/-- Final state of an offline exchange, in closed form. -/
theorem kcOffline_finalState (cfg : KeycloakConfig) (st : KCState) (now : Nat)
    (o : FetchOutcome) :
    KCfinalState st (KeycloakAuth.authenticateWithOfflineToken cfg st now o) =
      if (truthyS cfg.offlineToken && truthyS cfg.clientId) = true then
        (match o with
         | FetchOutcome.ok (some d) =>
             ⟨d.access_token, d.refresh_token,
              if truthyN d.expires_in = true then
                some (now + d.expires_in.getD 0 * 1000)
              else st.tokenExpiry⟩
         | _ => st)
      else st := by
  unfold KeycloakAuth.authenticateWithOfflineToken
  by_cases h1 : truthyS cfg.offlineToken
  · by_cases h2 : truthyS cfg.clientId
    · rw [h1, h2]
      simp only [Bool.and_self, if_true, Bool.not_true, Bool.false_eq_true,
        if_false]
      cases o with
      | ok body =>
          cases body with
          | none => rfl
          | some d =>
              obtain ⟨u, rt, tk, ei, tt⟩ := d
              cases u <;> rfl
      | err status body => rfl
      | transport msg => rfl
    · rw [h1, eq_false_of_ne_true h2]
      simp [KCfinalState]
  · rw [eq_false_of_ne_true h1]
    simp [KCfinalState]

/-- Final state of a refresh call, in closed form. -/
theorem kcRefresh_finalState (cfg : KeycloakConfig) (st : KCState)
    (now : Nat) (ro : FetchOutcome) (now2 : Nat) (oo : FetchOutcome) :
    KCfinalState st (KeycloakAuth.refreshAccessToken cfg st now ro now2 oo).1 =
      if truthyS st.refreshToken = true then
        (match ro with
         | FetchOutcome.ok (some d) =>
             ⟨d.access_token,
              if truthyS d.refresh_token = true then d.refresh_token
              else st.refreshToken,
              if truthyN d.expires_in = true then
                some (now + d.expires_in.getD 0 * 1000)
              else st.tokenExpiry⟩
         | _ => KCfinalState st
             (KeycloakAuth.authenticateWithOfflineToken cfg st now2 oo))
      else KCfinalState st
        (KeycloakAuth.authenticateWithOfflineToken cfg st now2 oo) := by
  unfold KeycloakAuth.refreshAccessToken
  by_cases hr : truthyS st.refreshToken
  · rw [hr]
    simp only [if_true, Bool.not_true, Bool.false_eq_true, if_false]
    cases ro with
    | ok body =>
        cases body with
        | none => rfl
        | some d => rfl
    | err status body =>
        cases hoff : KeycloakAuth.authenticateWithOfflineToken cfg st now2 oo with
        | ok p => simp [hoff, KCfinalState]
        | error e => simp [hoff, KCfinalState]
    | transport msg => rfl
  · rw [eq_false_of_ne_true hr]
    rfl

/-- If an offline exchange leaves expiry `x`, the value was either already
there or derived from the processed body as issue time plus truthy
lifetime. -/
theorem kcOffline_expiry_src (cfg : KeycloakConfig) (st : KCState)
    (now : Nat) (o : FetchOutcome) (x : Nat)
    (hx : (KCfinalState st
      (KeycloakAuth.authenticateWithOfflineToken cfg st now o)).tokenExpiry =
      some x) :
    (∃ d, o = FetchOutcome.ok (some d) ∧ truthyN d.expires_in = true ∧
      x = now + d.expires_in.getD 0 * 1000) ∨ st.tokenExpiry = some x := by
  rw [kcOffline_finalState] at hx
  by_cases hcfg : (truthyS cfg.offlineToken && truthyS cfg.clientId) = true
  · rw [if_pos hcfg] at hx
    cases o with
    | ok body =>
        cases body with
        | none => exact Or.inr hx
        | some d =>
            simp only at hx
            by_cases he : truthyN d.expires_in = true
            · rw [if_pos he] at hx
              injection hx with h
              exact Or.inl ⟨d, rfl, he, h.symm⟩
            · rw [if_neg he] at hx
              exact Or.inr hx
    | err status body => exact Or.inr hx
    | transport msg => exact Or.inr hx
  · rw [if_neg hcfg] at hx
    exact Or.inr hx

/-- If an offline exchange leaves access token `s`, the string was either
already there or supplied by the processed body. -/
theorem kcOffline_access_src (cfg : KeycloakConfig) (st : KCState)
    (now : Nat) (o : FetchOutcome) (s : String)
    (hs : (KCfinalState st
      (KeycloakAuth.authenticateWithOfflineToken cfg st now o)).accessToken =
      some s) :
    (∃ d, o = FetchOutcome.ok (some d) ∧ d.access_token = some s) ∨
      st.accessToken = some s := by
  rw [kcOffline_finalState] at hs
  by_cases hcfg : (truthyS cfg.offlineToken && truthyS cfg.clientId) = true
  · rw [if_pos hcfg] at hs
    cases o with
    | ok body =>
        cases body with
        | none => exact Or.inr hs
        | some d =>
            simp only at hs
            exact Or.inl ⟨d, rfl, hs⟩
    | err status body => exact Or.inr hs
    | transport msg => exact Or.inr hs
  · rw [if_neg hcfg] at hs
    exact Or.inr hs

/-- A step that leaves expiry `x` either processed a body deriving it or
found it already cached. -/
theorem kcStep_expiry (cfg : KeycloakConfig) (st : KCState) (e : KCEvent)
    (x : Nat) (hx : (kcStep cfg st e).tokenExpiry = some x) :
    KCEvent.carriesExpiry e x = true ∨ st.tokenExpiry = some x := by
  cases e with
  | clear => simp [kcStep, KeycloakAuth.clearTokens] at hx
  | offline now o =>
      simp only [kcStep] at hx
      rcases kcOffline_expiry_src cfg st now o x hx with ⟨d, rfl, he, hxe⟩ | h
      · left
        simp [KCEvent.carriesExpiry, KCEvent.processes, he, hxe]
      · exact Or.inr h
  | refresh now ro now2 oo =>
      simp only [kcStep] at hx
      rw [kcRefresh_finalState] at hx
      have fall : (KCfinalState st (KeycloakAuth.authenticateWithOfflineToken
          cfg st now2 oo)).tokenExpiry = some x →
          KCEvent.carriesExpiry (KCEvent.refresh now ro now2 oo) x = true ∨
            st.tokenExpiry = some x := by
        intro h
        rcases kcOffline_expiry_src cfg st now2 oo x h with ⟨d, rfl, he, hxe⟩ | h2
        · left
          simp [KCEvent.carriesExpiry, KCEvent.processes, List.any_append,
            he, hxe]
        · exact Or.inr h2
      by_cases hr : truthyS st.refreshToken = true
      · rw [if_pos hr] at hx
        cases ro with
        | ok body =>
            cases body with
            | none => exact fall hx
            | some d =>
                simp only at hx
                by_cases he : truthyN d.expires_in = true
                · rw [if_pos he] at hx
                  injection hx with h
                  left
                  simp [KCEvent.carriesExpiry, KCEvent.processes,
                    List.any_append, he, h.symm]
                · rw [if_neg he] at hx
                  exact Or.inr hx
        | err status body => exact fall hx
        | transport msg => exact fall hx
      · rw [if_neg hr] at hx
        exact fall hx

/-- A step that leaves access token `s` either processed a body supplying it
or found it already cached. -/
theorem kcStep_access (cfg : KeycloakConfig) (st : KCState) (e : KCEvent)
    (s : String) (hs : (kcStep cfg st e).accessToken = some s) :
    KCEvent.carriesAccess e s = true ∨ st.accessToken = some s := by
  cases e with
  | clear => simp [kcStep, KeycloakAuth.clearTokens] at hs
  | offline now o =>
      simp only [kcStep] at hs
      rcases kcOffline_access_src cfg st now o s hs with ⟨d, rfl, ha⟩ | h
      · left
        simp [KCEvent.carriesAccess, KCEvent.processes, ha]
      · exact Or.inr h
  | refresh now ro now2 oo =>
      simp only [kcStep] at hs
      rw [kcRefresh_finalState] at hs
      have fall : (KCfinalState st (KeycloakAuth.authenticateWithOfflineToken
          cfg st now2 oo)).accessToken = some s →
          KCEvent.carriesAccess (KCEvent.refresh now ro now2 oo) s = true ∨
            st.accessToken = some s := by
        intro h
        rcases kcOffline_access_src cfg st now2 oo s h with ⟨d, rfl, ha⟩ | h2
        · left
          simp [KCEvent.carriesAccess, KCEvent.processes, List.any_append, ha]
        · exact Or.inr h2
      by_cases hr : truthyS st.refreshToken = true
      · rw [if_pos hr] at hs
        cases ro with
        | ok body =>
            cases body with
            | none => exact fall hs
            | some d =>
                simp only at hs
                left
                simp [KCEvent.carriesAccess, KCEvent.processes,
                  List.any_append, hs]
        | err status body => exact fall hs
        | transport msg => exact fall hs
      · rw [if_neg hr] at hs
        exact fall hs

/-- C9 counterexample: the claim asserts that after a success-reporting
exchange the cached access token is absent or non-empty; an offline exchange
receiving HTTP success with `access_token` equal to the empty string reports
success and caches a present-but-empty access token. -/
theorem C9_empty_token_counterexample :
    KeycloakAuth.authenticateWithOfflineToken wCfg KCState.empty 0
        (.ok (some ⟨some "", some "R", none, some 100, none⟩)) =
      .ok ({ success := true, accessToken := some "",
             refreshToken := some "R", expiresIn := some 100,
             tokenType := none },
           ⟨some "", some "R", some 100000⟩) ∧
    (⟨some "", some "R", some 100000⟩ : KCState).accessToken = some "" ∧
    ("" : String).length = 0 :=
  ⟨rfl, rfl, rfl⟩

/-- Provenance invariant for every reachable `KeycloakAuth` state: a cached
access token was supplied verbatim by some processed exchange response, and
a cached expiry was derived as issue time plus the truthy lifetime reported
by some processed exchange response. -/
theorem kcProvenance (cfg : KeycloakConfig)
    (events : List KCEvent) :
    (∀ x, (kcRun cfg events).tokenExpiry = some x →
      anyCarriesExpiry events x = true) ∧
    (∀ s, (kcRun cfg events).accessToken = some s →
      anyCarriesAccess events s = true) := by
  induction events with
  | nil =>
      constructor
      · intro x hx
        simp [kcRun, KCState.empty] at hx
      · intro s hs
        simp [kcRun, KCState.empty] at hs
  | cons e es ih =>
      constructor
      · intro x hx
        rcases kcStep_expiry cfg (kcRun cfg es) e x hx with h | h
        · simp [anyCarriesExpiry, h]
        · have h2 := ih.1 x h
          simp only [anyCarriesExpiry, List.any_cons] at h2 ⊢
          simp [h2]
      · intro s hs
        rcases kcStep_access cfg (kcRun cfg es) e s hs with h | h
        · simp [anyCarriesAccess, h]
        · have h2 := ih.2 s h
          simp only [anyCarriesAccess, List.any_cons] at h2 ⊢
          simp [h2]


/-- C10 counterexample: the two `SimpleAuth` classes are not equivalent.  On
a 403 response the `simple-auth.js` variant reports a soft success caching
the personal access token while the `server.js` variant reports a failure
and leaves the state empty; their token-endpoint URLs differ even over the
same base (trailing slash) and their request shapes differ (JSON body with a
bearer Authorization header versus a form-encoded `refresh_token` field). -/
theorem C10_divergence_counterexample :
    SimpleAuth.authenticateWithPersonalToken (some "P") SAState.empty 0
        (.err 403 (.raw "forbidden")) =
      .ok ({ success := true, accessToken := some "P", expiresIn := some 3600,
             tokenType := some "Bearer", note := some SimpleAuth.directNote },
           ⟨some "P", some 3600000⟩) ∧
    ServerSimpleAuth.authenticateWithPersonalToken (some "P") SAState.empty 0
        (.err 403 (.raw "forbidden")) =
      .ok (networkFailure ServerSimpleAuth.licenseMsg, SAState.empty) ∧
    SimpleAuth.tokenEndpoint "https://h" ≠
      ServerSimpleAuth.tokenEndpoint "https://h" ∧
    SimpleAuth.tokenRequest "https://h" "P" ≠
      ServerSimpleAuth.tokenRequest "https://h" "P" := by
  exact ⟨rfl, rfl, by decide, by decide⟩

/-- C10 amended: the two classes agree on the token-validity bookkeeping
(`hasValidToken`, `clearTokens`), on HTTP-success responses carrying a
truthy `access_token` or `token` (same result and same final state), and on
non-2xx statuses other than 401 and 403; they diverge on 401/403 responses,
transport failures, non-JSON success bodies and tokenless success bodies
(soft success caching the personal access token versus a failure result),
and they derive different token-endpoint URLs and request shapes. -/
theorem C10_partial_equivalence_amended (pat : Option String) (st : SAState)
    (now : Nat) :
    (∀ data, (truthyS data.access_token || truthyS data.token) = true →
      SimpleAuth.authenticateWithPersonalToken pat st now (.ok (some data)) =
        ServerSimpleAuth.authenticateWithPersonalToken pat st now
          (.ok (some data))) ∧
    (∀ status body, ¬(status = 401 ∨ status = 403) →
      SimpleAuth.authenticateWithPersonalToken pat st now
          (.err status body) =
        ServerSimpleAuth.authenticateWithPersonalToken pat st now
          (.err status body)) ∧
    SimpleAuth.hasValidToken st now = ServerSimpleAuth.hasValidToken st now ∧
    SimpleAuth.clearTokens st = ServerSimpleAuth.clearTokens st := by
  refine ⟨?_, ?_, rfl, rfl⟩
  · intro data ht
    unfold SimpleAuth.authenticateWithPersonalToken
      ServerSimpleAuth.authenticateWithPersonalToken
    by_cases hp : truthyS pat
    · rw [hp]
      simp only [Bool.not_true, Bool.false_eq_true, if_false, ht, if_true]
    · rw [eq_false_of_ne_true hp]
      rfl
  · intro status body hs
    have h401 : (status == 401) = false :=
      beq_eq_false_iff_ne.mpr (fun h => hs (Or.inl h))
    have h403 : (status == 403) = false :=
      beq_eq_false_iff_ne.mpr (fun h => hs (Or.inr h))
    unfold SimpleAuth.authenticateWithPersonalToken
      ServerSimpleAuth.authenticateWithPersonalToken
    by_cases hp : truthyS pat
    · rw [hp]
      simp only [Bool.not_true, Bool.false_eq_true, if_false, h401, h403,
        Bool.or_self, Bool.false_eq_true, if_false]
    · rw [eq_false_of_ne_true hp]
      rfl

/-- C10 witness: both classes produce the identical result and state for a
concrete 2xx response carrying a token. -/
theorem C10_partial_equivalence_amended_witness :
    SimpleAuth.authenticateWithPersonalToken (some "P") SAState.empty 0
        (.ok (some ⟨some "T", none, none, some 120, none⟩)) =
      ServerSimpleAuth.authenticateWithPersonalToken (some "P") SAState.empty 0
        (.ok (some ⟨some "T", none, none, some 120, none⟩)) :=
  (C10_partial_equivalence_amended (some "P") SAState.empty 0).1
    ⟨some "T", none, none, some 120, none⟩ rfl

/-- One externally driven call on a direct-token `SimpleAuth` instance: a
personal-token exchange or `clearTokens`. -/
inductive SAEvent where
  | auth (now : Nat) (outcome : FetchOutcome)
  | clear
deriving DecidableEq, Repr

/-- State reached after one direct-variant event (a throwing call leaves the
storage as it was, since the credential throw precedes any mutation). -/
def saStep (pat : Option String) (st : SAState) : SAEvent → SAState
  | .auth now outcome =>
      SAfinalState st
        (SimpleAuth.authenticateWithPersonalToken pat st now outcome)
  | .clear => SimpleAuth.clearTokens st

/-- State reached from construction after a list of direct-variant events
(most recent event first). -/
def saRun (pat : Option String) : List SAEvent → SAState
  | [] => SAState.empty
  | e :: es => saStep pat (saRun pat es) e

/-- Whether a direct-variant event can derive the expiry value `x`: as
issue time plus a truthy reported lifetime, or as issue time plus the
one-hour default the fallback and defaulting branches use. -/
def SAEvent.carriesExpiry : SAEvent → Nat → Bool
  | .auth now o, x =>
      (match o with
       | FetchOutcome.ok (some d) =>
           truthyN d.expires_in && decide (x = now + d.expires_in.getD 0 * 1000)
       | _ => false) || decide (x = now + 3600 * 1000)
  | .clear, _ => false

/-- Whether a direct-variant event can cache the access-token string `s`:
supplied by the processed body, or the personal access token itself (cached
by the tokenless-body, 401/403 and transport fallbacks). -/
def SAEvent.carriesAccess (pat : Option String) : SAEvent → String → Bool
  | .auth _ (FetchOutcome.ok (some d)), s =>
      d.access_token == some s || d.token == some s || pat == some s
  | .auth _ _, s => pat == some s
  | .clear, _ => false

/-- Whether any direct-variant event of a trace derives expiry `x`. -/
def saAnyCarriesExpiry (events : List SAEvent) (x : Nat) : Bool :=
  events.any (fun ev => SAEvent.carriesExpiry ev x)

/-- Whether any direct-variant event of a trace can cache access token
`s`. -/
def saAnyCarriesAccess (pat : Option String) (events : List SAEvent)
    (s : String) : Bool :=
  events.any (fun ev => SAEvent.carriesAccess pat ev s)

/-- Final state of a direct-token exchange, in closed form. -/
theorem saAuth_finalState (pat : Option String) (st : SAState) (now : Nat)
    (o : FetchOutcome) :
    SAfinalState st (SimpleAuth.authenticateWithPersonalToken pat st now o) =
      if truthyS pat = true then
        (match o with
         | FetchOutcome.ok (some d) =>
             ⟨if (truthyS d.access_token || truthyS d.token) = true then
                orTruthyS d.access_token d.token else pat,
              some (if truthyN d.expires_in = true then
                now + d.expires_in.getD 0 * 1000 else now + 3600 * 1000)⟩
         | FetchOutcome.ok none => ⟨pat, some (now + 3600 * 1000)⟩
         | FetchOutcome.err status _ =>
             if (status == 401 || status == 403) = true then
               ⟨pat, some (now + 3600 * 1000)⟩
             else st
         | FetchOutcome.transport _ => ⟨pat, some (now + 3600 * 1000)⟩)
      else st := by
  unfold SimpleAuth.authenticateWithPersonalToken
  by_cases hp : truthyS pat
  · rw [hp]
    simp only [if_true, Bool.not_true, Bool.false_eq_true, if_false]
    cases o with
    | ok body =>
        cases body with
        | none => rfl
        | some d => rfl
    | err status body =>
        by_cases hs : (status == 401 || status == 403) = true
        · simp [SAfinalState, hs]
        · simp [SAfinalState, hs]
    | transport msg => rfl
  · rw [eq_false_of_ne_true hp]
    simp [SAfinalState, eq_false_of_ne_true hp]

/-- A direct-variant step that leaves expiry `x` either derived it (truthy
lifetime or one-hour default at its issue time) or found it already
cached. -/
theorem saStep_expiry (pat : Option String) (st : SAState) (e : SAEvent)
    (x : Nat) (hx : (saStep pat st e).tokenExpiry = some x) :
    SAEvent.carriesExpiry e x = true ∨ st.tokenExpiry = some x := by
  cases e with
  | clear => simp [saStep, SimpleAuth.clearTokens] at hx
  | auth now o =>
      simp only [saStep] at hx
      rw [saAuth_finalState] at hx
      by_cases hp : truthyS pat = true
      · rw [if_pos hp] at hx
        cases o with
        | ok body =>
            cases body with
            | none =>
                simp only at hx
                injection hx with h
                subst h
                left
                simp [SAEvent.carriesExpiry]
            | some d =>
                simp only at hx
                injection hx with h
                subst h
                by_cases he : truthyN d.expires_in = true
                · left
                  simp [SAEvent.carriesExpiry, he]
                · left
                  simp [SAEvent.carriesExpiry, eq_false_of_ne_true he]
        | err status body =>
            simp only at hx
            by_cases hs : (status == 401 || status == 403) = true
            · rw [if_pos hs] at hx
              injection hx with h
              subst h
              left
              simp [SAEvent.carriesExpiry]
            · rw [if_neg hs] at hx
              exact Or.inr hx
        | transport msg =>
            simp only at hx
            injection hx with h
            subst h
            left
            simp [SAEvent.carriesExpiry]
      · rw [if_neg hp] at hx
        exact Or.inr hx

/-- A direct-variant step that leaves access token `s` either cached a
string supplied by the processed body or the personal access token itself,
or found it already cached. -/
theorem saStep_access (pat : Option String) (st : SAState) (e : SAEvent)
    (s : String) (hs : (saStep pat st e).accessToken = some s) :
    SAEvent.carriesAccess pat e s = true ∨ st.accessToken = some s := by
  cases e with
  | clear => simp [saStep, SimpleAuth.clearTokens] at hs
  | auth now o =>
      simp only [saStep] at hs
      rw [saAuth_finalState] at hs
      by_cases hp : truthyS pat = true
      · rw [if_pos hp] at hs
        cases o with
        | ok body =>
            cases body with
            | none =>
                simp only at hs
                left
                simp [SAEvent.carriesAccess, hs]
            | some d =>
                simp only at hs
                by_cases hta : truthyS d.access_token = true
                · rw [if_pos (by simp [hta] : (truthyS d.access_token ||
                      truthyS d.token) = true)] at hs
                  rw [show orTruthyS d.access_token d.token =
                    d.access_token from if_pos hta] at hs
                  left
                  simp [SAEvent.carriesAccess, hs]
                · by_cases htt : truthyS d.token = true
                  · rw [if_pos (by simp [htt] : (truthyS d.access_token ||
                        truthyS d.token) = true)] at hs
                    rw [show orTruthyS d.access_token d.token =
                      d.token from if_neg (by simp [eq_false_of_ne_true hta])] at hs
                    left
                    simp [SAEvent.carriesAccess, hs]
                  · rw [if_neg (by simp [eq_false_of_ne_true hta,
                      eq_false_of_ne_true htt])] at hs
                    left
                    simp [SAEvent.carriesAccess, hs]
        | err status body =>
            simp only at hs
            by_cases h43 : (status == 401 || status == 403) = true
            · rw [if_pos h43] at hs
              simp only at hs
              left
              simp [SAEvent.carriesAccess, hs]
            · rw [if_neg h43] at hs
              exact Or.inr hs
        | transport msg =>
            simp only at hs
            left
            simp [SAEvent.carriesAccess, hs]
      · rw [if_neg hp] at hs
        exact Or.inr hs

/-- Provenance invariant for every reachable direct-variant `SimpleAuth`
state: a cached access token was supplied by some processed response body or
is the personal access token, and a cached expiry was derived at some
call's issue time from a truthy reported lifetime or the one-hour
default. -/
theorem saProvenance (pat : Option String) (events : List SAEvent) :
    (∀ x, (saRun pat events).tokenExpiry = some x →
      saAnyCarriesExpiry events x = true) ∧
    (∀ s, (saRun pat events).accessToken = some s →
      saAnyCarriesAccess pat events s = true) := by
  induction events with
  | nil =>
      constructor
      · intro x hx
        simp [saRun, SAState.empty] at hx
      · intro s hs
        simp [saRun, SAState.empty] at hs
  | cons e es ih =>
      constructor
      · intro x hx
        rcases saStep_expiry pat (saRun pat es) e x hx with h | h
        · simp [saAnyCarriesExpiry, h]
        · have h2 := ih.1 x h
          simp only [saAnyCarriesExpiry, List.any_cons] at h2 ⊢
          simp [h2]
      · intro s hs
        rcases saStep_access pat (saRun pat es) e s hs with h | h
        · simp [saAnyCarriesAccess, h]
        · have h2 := ih.2 s h
          simp only [saAnyCarriesAccess, List.any_cons] at h2 ⊢
          simp [h2]

/-- C9 amended: in every reachable state of either variant the invariant
holds in the following provenance form.  BrokeredAuth: the cached access
token, when present, is a string supplied verbatim by some processed
exchange response (possibly empty, since the code does not enforce
non-emptiness), and the cached expiry, when present, was derived as issue
time plus the truthy lifetime reported by some processed response (not
necessarily the most recent successful one, since a response without
`expires_in` keeps the older expiry).  DirectTokenAuth: the cached access
token, when present, was supplied by some processed response body or is the
personal access token itself (cached by the tokenless-body, 401/403 and
transport fallbacks), and the cached expiry, when present, equals some
call's issue time plus either a truthy reported lifetime or the one-hour
default. -/
theorem C9_state_provenance_amended :
    (∀ cfg events,
      (∀ x, (kcRun cfg events).tokenExpiry = some x →
        anyCarriesExpiry events x = true) ∧
      (∀ s, (kcRun cfg events).accessToken = some s →
        anyCarriesAccess events s = true)) ∧
    (∀ pat events,
      (∀ x, (saRun pat events).tokenExpiry = some x →
        saAnyCarriesExpiry events x = true) ∧
      (∀ s, (saRun pat events).accessToken = some s →
        saAnyCarriesAccess pat events s = true)) :=
  ⟨fun cfg events => kcProvenance cfg events,
   fun pat events => saProvenance pat events⟩

/-- C9 witness: a one-event brokered trace processing `expires_in = 100` at
time 0 yields expiry 100000 with provenance located in the trace, and a
one-event direct trace hitting a transport error at time 0 yields the
one-hour default expiry 3600000 with provenance located in the trace. -/
theorem C9_state_provenance_amended_witness :
    anyCarriesExpiry [KCEvent.offline 0
      (.ok (some ⟨some "A", some "R", none, some 100, none⟩))] 100000 = true ∧
    saAnyCarriesExpiry [SAEvent.auth 0 (.transport "down")] 3600000 = true :=
  ⟨(C9_state_provenance_amended.1 wCfg [KCEvent.offline 0
      (.ok (some ⟨some "A", some "R", none, some 100, none⟩))]).1 100000 rfl,
   (C9_state_provenance_amended.2 (some "P")
      [SAEvent.auth 0 (.transport "down")]).1 3600000 rfl⟩
